import Mathlib

/-!
Verification of the Renode monitor helper script (`scripts/monitor.py`).

The script defines console commands over an external emulation platform:
`mc_dump` (hex/ASCII memory dump), `mc_dump_file` (memory-to-file dump),
`mc_uart_connect` (UART terminal bridge), `mc_next_value` (counter helper)
and `mc_get_environ` (environment lookup).  The external collaborators
(system bus, UART peripheral, file system, process environment) are modelled
as explicit parameters; the Python control flow is translated function by
function below.
-/

namespace Monitor

/-- A byte, as returned by the Bus collaborator (`sysbus.ReadBytes`). -/
abbrev Byte := Fin 256

/-- Python 2 `range(start, stop, step)` length for a positive `step`:
`ceil((stop - start) / step)` elements when `start < stop`, else none. -/
def pyRangeLen (start stop step : Nat) : Nat :=
  if start < stop then (stop - start + step - 1) / step else 0

/-- Python 2 `range(start, stop, step)` for a positive `step`: the list
`start, start + step, start + 2*step, ...` of values below `stop`. -/
def pyRange (start stop step : Nat) : List Nat :=
  (List.range (pyRangeLen start stop step)).map (fun i => start + i * step)

/-- `sysbus.ReadBytes(a, n)`: the `n` bus bytes at addresses `a, a+1, ..., a+n-1`.
The bus is modelled as a total byte-valued function of the address. -/
def readBytes (bus : Nat → Byte) (a n : Nat) : List Byte :=
  (List.range n).map (fun i => bus (a + i))

/-- One row of `mc_dump` output: the row address and the bytes read for it. -/
structure DumpRow where
  addr : Nat
  bytes : List Byte
deriving DecidableEq, Repr

/-- `mc_dump(mem_start_val, mem_count_val, wid_val)` (monitor.py lines 51-68):
`for a in range(mem_start, mem_start + mem_count, wid): data = sysbus.ReadBytes(a, wid)`,
one printed row per loop iteration.  Each row reads a full `wid` bytes. -/
def mc_dump (bus : Nat → Byte) (mem_start mem_count wid : Nat) : List DumpRow :=
  (pyRange mem_start (mem_start + mem_count) wid).map
    (fun a => DumpRow.mk a (readBytes bus a wid))

/-- The bus addresses `mc_dump` reads: for each row address `a` of the loop,
the addresses `a, a+1, ..., a+wid-1` passed to `sysbus.ReadBytes(a, wid)`. -/
def dumpReadAddrs (mem_start mem_count wid : Nat) : List Nat :=
  ((pyRange mem_start (mem_start + mem_count) wid).map
    (fun a => (List.range wid).map (fun i => a + i))).flatten

/-- Uppercase hexadecimal digit character, as produced by Python `%X`. -/
def hexDigitChar (n : Nat) : Char :=
  if n < 10 then Char.ofNat (48 + n) else Char.ofNat (55 + n)

/-- `"%02X" % b` for a byte `b`: exactly two uppercase hex digits. -/
def hex2 (b : Byte) : String :=
  String.mk [hexDigitChar (b.val / 16), hexDigitChar (b.val % 16)]

/-- Big-endian uppercase hex digits of `n` (at least one digit); the first
argument is fuel, and `n + 1` units always suffice since `n / 16 < n` for
`n ≥ 16`. -/
def hexDigitsAux : Nat → Nat → List Char
  | 0, _ => []
  | fuel + 1, n =>
    if n < 16 then [hexDigitChar n]
    else hexDigitsAux fuel (n / 16) ++ [hexDigitChar (n % 16)]

/-- `"%08X" % n`: uppercase hex, zero-padded on the left to at least 8 digits. -/
def hex8 (n : Nat) : String :=
  let ds := hexDigitsAux (n + 1) n
  String.mk (List.replicate (8 - ds.length) (Char.ofNat 48) ++ ds)

/-- The ASCII cell printed for byte value `c` (monitor.py lines 63-67):
`if not ((c < 0x20) or (c > 127))` the literal character `chr(c)` is printed,
otherwise the placeholder dot.  (Each cell is printed as a backspace followed
by the character, so on the terminal the cells appear packed; `asciiCell` is
the terminal-visible character of one cell.) -/
def asciiCell (c : Nat) : Char :=
  if ¬ (c < 0x20 ∨ c > 127) then Char.ofNat c else Char.ofNat 46

/-- The hex column of a row: the bytes as `%02X`, separated by the single
spaces Python 2 comma-prints insert. -/
def hexColumn (bs : List Byte) : String :=
  String.intercalate " " (bs.map hex2)

/-- The ASCII column of a row as visible on the terminal: the per-byte cells
packed together (each cell's leading backspace erases the comma-print space). -/
def asciiColumn (bs : List Byte) : String :=
  String.mk (bs.map (fun b => asciiCell b.val))

/-- The terminal-visible line printed for one dump row:
`print "0x%08X |" % a,` then the hex cells, then `print "| ",` then the
ASCII cells (Python 2 comma-prints separated by single softspaces, with the
ASCII cells' backspaces collapsing their separators). -/
def renderRow (r : DumpRow) : String :=
  String.append (String.append (String.append (String.append
    (String.mk [Char.ofNat 48, Char.ofNat 120]) (hex8 r.addr))
    (String.mk [Char.ofNat 32, Char.ofNat 124, Char.ofNat 32]))
    (hexColumn r.bytes))
    (String.append (String.mk [Char.ofNat 32, Char.ofNat 124, Char.ofNat 32])
      (asciiColumn r.bytes))

/-- An all-zero bus, used for concrete evaluations. -/
def zbus : Nat → Byte := fun _ => 0

/-- The bus of the spec's worked example: bytes `41 00 42 7F` at `0x1000`. -/
def bus3 : Nat → Byte := fun a =>
  if a = 0x1000 then 0x41
  else if a = 0x1001 then 0x00
  else if a = 0x1002 then 0x42
  else if a = 0x1003 then 0x7F
  else 0

/-- `mc_dump_file(mem_start_val, mem_count_val, filename)` (monitor.py lines
70-77).  The bus read `tab = sysbus.ReadBytes(mem_start, mem_count)` (line 74)
may fail and is modelled as an `Except`; it happens before any file-system
operation (the `FileStream` of line 75), so on a read failure the error
propagates and the file system is returned unchanged.  On success the
`FileStream(filename, FileMode.Create, FileAccess.Write)` creates or
truncates `filename`, `fl.Write(tab, 0, mem_count)` writes the first
`mem_count` bytes of `tab` to it, and `fl.Close()` closes it.  The file
system is modelled as a map from path to optional file content. -/
def mc_dump_file (busR : Nat → Nat → Except String (List Byte))
    (fs : String → Option (List Byte)) (mem_start mem_count : Nat)
    (filename : String) :
    Except String Unit × (String → Option (List Byte)) :=
  match busR mem_start mem_count with
  | Except.error e => (Except.error e, fs)
  | Except.ok tab =>
    (Except.ok (), fun p => if p = filename then some (tab.take mem_count) else fs p)

/-- Observable actions of `mc_uart_connect` on its collaborators. -/
inductive UEvent where
  | subscribe
  | unsubscribe
  | writeChar (c : Nat)
  | printMsg (s : String)
deriving DecidableEq, Repr

/-- The `while True` loop of `mc_uart_connect` (monitor.py lines 19-23):
`c = sys.stdin.read(1); if ord(c) == 27: break; uart.WriteChar(ord(c))`.
The input stream is the list of code points `sys.stdin.read(1)` yields;
when it is exhausted, `read(1)` returns the empty string and `ord('')`
raises, modelled as `Except.error ()`.  `writeOk c = false` models
`uart.WriteChar(c)` raising.  Returns the loop outcome (normal break on
ESC, or an exception) and the `writeChar` events issued. -/
def uartLoop (writeOk : Nat → Bool) : List Nat → Except Unit Unit × List UEvent
  | [] => (Except.error (), [])
  | c :: rest =>
    if c = 27 then (Except.ok (), [])
    else if writeOk c then
      let r := uartLoop writeOk rest
      (r.1, UEvent.writeChar c :: r.2)
    else (Except.error (), [])

/-- `mc_uart_connect(device_name)` (monitor.py lines 6-25).  `resolve name`
models the `try: uart = clr.Convert(self.Machine[str(device_name)], IUART)`
succeeding; on failure the `except` prints a message and returns `1`.  On
success the function prints the redirect message, subscribes `__printer` to
`uart.CharReceived`, runs the input loop, and only on the loop's normal
(ESC) exit unsubscribes and prints the disconnect message — an exception
escaping the loop propagates with the subscription still in place.  The
result is the Python return value (`some 1` on resolution failure, `none`,
i.e. Python `None`, on normal completion) under `Except` for an escaping
exception, paired with the trace of observable events. -/
def mc_uart_connect (resolve : String → Bool) (writeOk : Nat → Bool)
    (device_name : String) (input : List Nat) :
    Except Unit (Option Nat) × List UEvent :=
  if resolve device_name then
    let r := uartLoop writeOk input
    match r.1 with
    | Except.ok _ =>
      (Except.ok none,
       UEvent.printMsg (String.append (String.append "Redirecting the input to "
          device_name) ", press <ESC> to quit...") ::
       UEvent.subscribe :: r.2 ++
       [UEvent.unsubscribe,
        UEvent.printMsg (String.append "Disconnected from " device_name)])
    | Except.error _ =>
      (Except.error (),
       UEvent.printMsg (String.append (String.append "Redirecting the input to "
          device_name) ", press <ESC> to quit...") ::
       UEvent.subscribe :: r.2)
  else
    (Except.ok (some 1),
     [UEvent.printMsg (String.append (String.append "Peripheral " device_name)
        " not found or not an IUART.")])

/-- The module-level `current_value = 0` (monitor.py line 4). -/
def current_value_init : Int := 0

/-- `mc_next_value(offset)` (monitor.py lines 27-30): prints
`current_value + offset` and sets `current_value` to `current_value + 1`.
Returns the printed number and the new counter state. -/
def mc_next_value (current_value offset : Int) : Int × Int :=
  (current_value + offset, current_value + 1)

/-- `mc_get_environ(variable)` (monitor.py lines 79-82):
`v = System.Environment.GetEnvironmentVariable(variable); if v != None: print v`.
The environment is a map from name to optional value; the result is the list
of printed lines (one line when the variable is set, none otherwise).
(`variable` is a Lean keyword, hence the parameter name `varName`.) -/
def mc_get_environ (env : String → Option String) (varName : String) :
    List String :=
  match env varName with
  | some v => [v]
  | none => []

/-- A bus read that always succeeds, over the all-zero bus. -/
def busW : Nat → Nat → Except String (List Byte) :=
  fun s c => Except.ok (readBytes zbus s c)

/-- An empty file system. -/
def fsW : String → Option (List Byte) := fun _ => none

/-- A bus read that always fails. -/
def busFail : Nat → Nat → Except String (List Byte) :=
  fun _ _ => Except.error "read failed"

/-- A concrete environment with only `PATH` set. -/
def envW : String → Option String :=
  fun n => if n = "PATH" then some "/usr/bin" else none

/-- The Python `range(mem_start, mem_start + k*width, width)` has exactly `k`
elements when `width > 0` and `k > 0`. -/
theorem pyRangeLen_mul (start width k : Nat) (hw : 0 < width) (hk : 0 < k) :
    pyRangeLen start (start + k * width) width = k := by
  unfold pyRangeLen
  have hlt : start < start + k * width :=
    Nat.lt_add_of_pos_right (Nat.mul_pos hk hw)
  rw [if_pos hlt, Nat.add_sub_cancel_left, Nat.add_sub_assoc hw,
    Nat.mul_comm k width, Nat.mul_add_div hw,
    Nat.div_eq_of_lt (Nat.sub_lt hw Nat.one_pos), Nat.add_zero]

/-- Claim C1: for every start address, every width > 0 and every row count
k ≥ 1, dumping `count = k*width` bytes emits exactly `k` rows, and the
address at the head of row `i` (0-based) is `start + i*width`. -/
theorem C1_exact_rows (bus : Nat → Byte) (start width k : Nat)
    (hw : 0 < width) (hk : 0 < k) :
    (mc_dump bus start (k * width) width).length = k ∧
    (mc_dump bus start (k * width) width).map DumpRow.addr
      = (List.range k).map (fun i => start + i * width) := by
  unfold mc_dump pyRange
  rw [pyRangeLen_mul start width k hw hk]
  constructor
  · simp
  · simp [List.map_map, Function.comp]

/-- Witness for C1: dumping `3 * 4` bytes from `0x1000` with width 4 gives
three rows at addresses `0x1000`, `0x1004`, `0x1008`. -/
theorem C1_exact_rows_witness :
    (mc_dump zbus 4096 (3 * 4) 4).length = 3 ∧
    (mc_dump zbus 4096 (3 * 4) 4).map DumpRow.addr
      = (List.range 3).map (fun i => 4096 + i * 4) :=
  C1_exact_rows zbus 4096 4 3 (by decide) (by decide)

/-- Claim C2 (evaluated at the failing input `start = 0`, `count = 3`,
`width = 2`): the dump does emit `ceil(3/2) = 2` rows, but the last row
contains 2 bytes rather than `3 mod 2 = 1`, and the bus address
`3 = start + count` is read, contradicting the claim's no-over-read part. -/
theorem C2_overread_eval :
    (mc_dump zbus 0 3 2).length = 2 ∧
    (mc_dump zbus 0 3 2).map (fun r => r.bytes.length) = [2, 2] ∧
    3 ∈ dumpReadAddrs 0 3 2 := by decide

/-- Counterexample to C3 as stated: `dump(0x1000, 4, 4)` over bus bytes
`41 00 42 7F` does not produce the ASCII column `A.B.` — the code treats
`0x7F` as printable (`not (c < 0x20 or c > 127)`), so the last ASCII cell
is the DEL character, not the placeholder dot. -/
theorem C3_counterexample :
    (mc_dump bus3 0x1000 4 4).map (fun r => asciiColumn r.bytes) ≠ ["A.B."] := by
  decide

/-- Claim C3 as amended: the ASCII cell renders the literal character of `c`
exactly when `0x20 ≤ c ≤ 0x7F` and the placeholder dot otherwise; `0x41`
renders as `A`, `0x00` as the dot, `0x7F` as the literal DEL character; and
`dump(0x1000, 4, 4)` over bus bytes `41 00 42 7F` produces one row with
address `0x00001000`, hex column `41 00 42 7F` and ASCII column `A.B` +
DEL. -/
theorem C3_ascii_amended :
    (∀ c : Nat, asciiCell c =
      if 0x20 ≤ c ∧ c ≤ 127 then Char.ofNat c else Char.ofNat 46) ∧
    asciiCell 0x41 = Char.ofNat 65 ∧
    asciiCell 0x00 = Char.ofNat 46 ∧
    asciiCell 0x7F = Char.ofNat 0x7F ∧
    (mc_dump bus3 0x1000 4 4).map renderRow
      = [String.append (String.append "0x00001000 | 41 00 42 7F | " "A.B")
          (String.mk [Char.ofNat 0x7F])] := by
  refine ⟨?_, by decide, by decide, by decide, by decide⟩
  intro c
  unfold asciiCell
  by_cases h : 0x20 ≤ c ∧ c ≤ 127
  · rw [if_pos h, if_pos (by omega)]
  · rw [if_neg h, if_neg (by omega)]

/-- Claim C4: when the bus read succeeds and returns `tab` (of length
`count`, as `ReadBytes` guarantees), `mc_dump_file` returns successfully,
the file at `path` holds exactly `tab` byte-for-byte (overwriting whatever
was there), and every other path is untouched. -/
theorem C4_roundtrip (busR : Nat → Nat → Except String (List Byte))
    (fs : String → Option (List Byte)) (start count : Nat) (path : String)
    (tab : List Byte) (hok : busR start count = Except.ok tab)
    (hlen : tab.length = count) :
    (mc_dump_file busR fs start count path).1 = Except.ok () ∧
    (mc_dump_file busR fs start count path).2 path = some tab ∧
    ∀ q, q ≠ path → (mc_dump_file busR fs start count path).2 q = fs q := by
  unfold mc_dump_file
  rw [hok]
  refine ⟨rfl, ?_, ?_⟩
  · subst hlen
    simp [List.take_length]
  · intro q hq
    simp [hq]

/-- Witness for C4: dumping 3 bytes from address 5 of the all-zero bus into
`dump.bin` over an empty file system stores exactly those bytes there and
leaves `other.bin` absent. -/
theorem C4_roundtrip_witness :
    (mc_dump_file busW fsW 5 3 "dump.bin").1 = Except.ok () ∧
    (mc_dump_file busW fsW 5 3 "dump.bin").2 "dump.bin" = some (readBytes zbus 5 3) ∧
    (mc_dump_file busW fsW 5 3 "dump.bin").2 "other.bin" = none := by
  have h := C4_roundtrip busW fsW 5 3 "dump.bin" (readBytes zbus 5 3) rfl (by decide)
  exact ⟨h.1, h.2.1, h.2.2 "other.bin" (by decide)⟩

/-- Claim C5: when the bus read raises, `mc_dump_file` propagates the
failure and returns the file system completely unchanged — the read (line
74) precedes the `FileStream` creation (line 75), so no file-system
operation happens. -/
theorem C5_read_failure (busR : Nat → Nat → Except String (List Byte))
    (fs : String → Option (List Byte)) (start count : Nat) (path : String)
    (e : String) (herr : busR start count = Except.error e) :
    mc_dump_file busR fs start count path = (Except.error e, fs) := by
  unfold mc_dump_file
  rw [herr]

/-- Witness for C5: a failing bus read leaves the empty file system intact
and propagates the error. -/
theorem C5_read_failure_witness :
    mc_dump_file busFail fsW 0 4 "dump2.bin" = (Except.error "read failed", fsW) :=
  C5_read_failure busFail fsW 0 4 "dump2.bin" "read failed" rfl

/-- Claim C6: when UART resolution fails, `mc_uart_connect` prints the
human-readable error message, returns the non-exceptional failure status 1
(distinguishable from the `none` of a normal session), and neither
subscribes to nor writes to any device. -/
theorem C6_resolution_failure (resolve : String → Bool) (writeOk : Nat → Bool)
    (name : String) (input : List Nat) (hres : resolve name = false) :
    mc_uart_connect resolve writeOk name input =
      (Except.ok (some 1),
       [UEvent.printMsg (String.append (String.append "Peripheral " name)
          " not found or not an IUART.")]) ∧
    UEvent.subscribe ∉ (mc_uart_connect resolve writeOk name input).2 ∧
    ∀ c, UEvent.writeChar c ∉ (mc_uart_connect resolve writeOk name input).2 := by
  have hmain : mc_uart_connect resolve writeOk name input =
      (Except.ok (some 1),
       [UEvent.printMsg (String.append (String.append "Peripheral " name)
          " not found or not an IUART.")]) := by
    unfold mc_uart_connect
    simp [hres]
  refine ⟨hmain, ?_, ?_⟩
  · rw [hmain]
    simp
  · intro c
    rw [hmain]
    simp

/-- Witness for C6: a resolver that rejects `uart9` yields the message, the
status 1 and no subscribe or write event. -/
theorem C6_resolution_failure_witness :
    mc_uart_connect (fun _ => false) (fun _ => true) "uart9" [65] =
      (Except.ok (some 1),
       [UEvent.printMsg (String.append (String.append "Peripheral " "uart9")
          " not found or not an IUART.")]) ∧
    UEvent.subscribe ∉ (mc_uart_connect (fun _ => false) (fun _ => true) "uart9" [65]).2 ∧
    UEvent.writeChar 65 ∉ (mc_uart_connect (fun _ => false) (fun _ => true) "uart9" [65]).2 := by
  have h := C6_resolution_failure (fun _ => false) (fun _ => true) "uart9" [65] rfl
  exact ⟨h.1, h.2.1, h.2.2 65⟩

/-- The interactive loop on input `pre ++ ESC :: post`, where no character
of `pre` is ESC and every `WriteChar` on `pre` succeeds, exits normally
after writing exactly the characters of `pre` in order. -/
theorem uartLoop_esc (writeOk : Nat → Bool) (pre post : List Nat)
    (hpre : ∀ c ∈ pre, c ≠ 27 ∧ writeOk c = true) :
    uartLoop writeOk (pre ++ 27 :: post) = (Except.ok (), pre.map UEvent.writeChar) := by
  induction pre with
  | nil => simp [uartLoop]
  | cons c rest ih =>
    have hc := hpre c (List.mem_cons_self c rest)
    have hrest : ∀ d ∈ rest, d ≠ 27 ∧ writeOk d = true :=
      fun d hd => hpre d (List.mem_cons_of_mem c hd)
    simp [uartLoop, hc.1, hc.2, ih hrest]

/-- Claim C7: on an input stream whose first ESC (code point 27) follows the
prefix `pre`, a successfully connected `mc_uart_connect` session terminates
normally at the ESC, forwards via `WriteChar` exactly the characters read
before the ESC, never forwards the ESC itself, and unsubscribes before
returning. -/
theorem C7_esc_terminates (resolve : String → Bool) (writeOk : Nat → Bool)
    (name : String) (pre post : List Nat) (hres : resolve name = true)
    (hpre : ∀ c ∈ pre, c ≠ 27 ∧ writeOk c = true) :
    mc_uart_connect resolve writeOk name (pre ++ 27 :: post) =
      (Except.ok none,
       UEvent.printMsg (String.append (String.append "Redirecting the input to "
          name) ", press <ESC> to quit...") ::
       UEvent.subscribe :: pre.map UEvent.writeChar ++
       [UEvent.unsubscribe,
        UEvent.printMsg (String.append "Disconnected from " name)]) ∧
    UEvent.writeChar 27 ∉ (mc_uart_connect resolve writeOk name (pre ++ 27 :: post)).2 := by
  have hloop := uartLoop_esc writeOk pre post hpre
  have hmain : mc_uart_connect resolve writeOk name (pre ++ 27 :: post) =
      (Except.ok none,
       UEvent.printMsg (String.append (String.append "Redirecting the input to "
          name) ", press <ESC> to quit...") ::
       UEvent.subscribe :: pre.map UEvent.writeChar ++
       [UEvent.unsubscribe,
        UEvent.printMsg (String.append "Disconnected from " name)]) := by
    unfold mc_uart_connect
    simp [hres, hloop]
  refine ⟨hmain, ?_⟩
  intro hmem
  rw [hmain] at hmem
  simp at hmem
  exact (hpre 27 hmem).1 rfl

/-- Witness for C7: the session on input `A B ESC C` writes exactly `A` and
`B`, never writes ESC, unsubscribes and returns normally. -/
theorem C7_esc_terminates_witness :
    mc_uart_connect (fun _ => true) (fun _ => true) "uart0" ([65, 66] ++ 27 :: [67]) =
      (Except.ok none,
       UEvent.printMsg (String.append (String.append "Redirecting the input to "
          "uart0") ", press <ESC> to quit...") ::
       UEvent.subscribe :: [65, 66].map UEvent.writeChar ++
       [UEvent.unsubscribe,
        UEvent.printMsg (String.append "Disconnected from " "uart0")]) ∧
    UEvent.writeChar 27 ∉
      (mc_uart_connect (fun _ => true) (fun _ => true) "uart0" ([65, 66] ++ 27 :: [67])).2 :=
  C7_esc_terminates (fun _ => true) (fun _ => true) "uart0" [65, 66] [67] rfl (by decide)

/-- Claim C8 (evaluated at the failing input: resolution succeeds and stdin
reaches end-of-file before any ESC, so `ord('')` raises): the session exits
abnormally with the `CharReceived` subscription still registered — the
subscribe event is in the trace but no unsubscribe event is, contradicting
the claim that every exit path unsubscribes. -/
theorem C8_dangling_subscription :
    (mc_uart_connect (fun _ => true) (fun _ => true) "uart0" []).1 = Except.error () ∧
    UEvent.subscribe ∈ (mc_uart_connect (fun _ => true) (fun _ => true) "uart0" []).2 ∧
    UEvent.unsubscribe ∉ (mc_uart_connect (fun _ => true) (fun _ => true) "uart0" []).2 := by
  refine ⟨rfl, by decide, by decide⟩

/-- Claim C9: the counter starts at 0, `mc_next_value` prints
`current_value + offset` and then increments the counter by exactly one
regardless of the offset; three successive calls with offsets 0, 5, 0 print
0, 6 and 2. -/
theorem C9_counter_behaviour :
    (∀ cv off : Int, mc_next_value cv off = (cv + off, cv + 1)) ∧
    (mc_next_value current_value_init 0).1 = 0 ∧
    (mc_next_value (mc_next_value current_value_init 0).2 5).1 = 6 ∧
    (mc_next_value (mc_next_value (mc_next_value current_value_init 0).2 5).2 0).1 = 2 := by
  exact ⟨fun cv off => rfl, by decide, by decide, by decide⟩

/-- Claim C10: `mc_get_environ` prints exactly the variable's value when the
lookup returns one, and prints nothing at all (no empty line, no error) when
the variable is unset, returning normally in both cases. -/
theorem C10_environ (env : String → Option String) (varName : String) :
    (∀ v, env varName = some v → mc_get_environ env varName = [v]) ∧
    (env varName = none → mc_get_environ env varName = []) := by
  constructor
  · intro v hv
    unfold mc_get_environ
    rw [hv]
  · intro hv
    unfold mc_get_environ
    rw [hv]

/-- Witness for C10: with only `PATH` set, looking up `PATH` prints its
value and looking up `HOME` prints nothing. -/
theorem C10_environ_witness :
    mc_get_environ envW "PATH" = ["/usr/bin"] ∧ mc_get_environ envW "HOME" = [] :=
  ⟨(C10_environ envW "PATH").1 "/usr/bin" (by decide),
   (C10_environ envW "HOME").2 (by decide)⟩

end Monitor
